import Mathlib

/-! Sprite tables of `mortal_kombat_info.h`.

A shallow embedding of the header `src/mortal_kombat_info.h`: the three
enumerations, the `SpriteInfo` record, the `SpriteData<T, SIZE>` wrapper with
its indexing operator, and the five constant tables.

Modelling conventions.

* An `enum class` is an inductive type. `static_cast_int` is the conversion
  `static_cast<int>(s)`, a signed `int`: the template `SpriteData<T, SIZE>`
  accepts any index type `T` with that conversion, also one with negative
  enumerators. The enumerators of the three enums of the header are all
  implicit, counting up from `0`; `ordinal` gives their value as a natural
  number and their `static_cast_int` is that value.
* The `float` fields `x, y, w, h` of `SpriteInfo` are initialised only from
  integer literals of magnitude below `2^24`, which `float` represents
  exactly; they are stored as `Int`.  `frameCount` is an `int`, stored as `Int`.
* `std::array<SpriteInfo, SIZE>` is a list together with a proof that its
  length is `SIZE`.  Subscripting outside `0 .. SIZE-1` is undefined in C++;
  the model returns `none` there and `some e` for a defined lookup.
-/

set_option autoImplicit false

namespace mortal_kombat

/-! ## Enumerations -/

/-- The different states of the player (`enum class State`). -/
inductive State where
  | STANCE
  | WALK_FORWARDS
  | WALK_BACKWARDS
  | LOW_PUNCH
  | LOW_PUNCH_SPREE
  | BODY_TO_BODY_PUNCH
  | HIGH_PUNCH
  | HIGH_PUNCH_SPREE
  | BODY_TO_BODY_KICK
  | LOW_KICK
  | LOW_SWEEP_KICK
  | HIGH_KICK
  | HIGH_SWEEP_KICK
  | CROUCH
  | UPPERCUT
  | CROUCH_KICK
  | JUMP
  | JUMP_PUNCH
  | JUMP_HIGH_KICK
  | LANDING
  | JUMP_BACK
  | ROLL
  | FORWARD_JUMP_PUNCH
  | JUMP_LOW_KICK
  | TORSO_HIT
  | HEAD_HIT
  | KICKBACK_TORSO_HIT
  | CROUCH_HIT
  | FALL
  | UPPERCUT_HIT
  | NUTS_HIT
  | FALL_INPLACE
  | GETUP
  | CAUGHT
  | THROWN
  | BLOCK
  | CROUCH_BLOCK
  | TURN_RIGHT_TO_LEFT
  | TURN_LEFT_TO_RIGHT
  | SPECIAL_1
  | SPECIAL_2
  | SPECIAL_3
  | GIDDY
  | FINISH_HIM
  | GIDDY_FALL
  | WIN
  deriving DecidableEq, Fintype, Repr

/-- The different special attack types (`enum class SpecialAttacks`). -/
inductive SpecialAttacks where
  | FIREBALL
  | EXPLOSION
  | NONE
  deriving DecidableEq, Fintype, Repr

/-- The different character types (`enum class CharacterType`). -/
inductive CharacterType where
  | CAGE
  | KANO
  | RAIDEN
  | LIU_KANG
  | SCORPION
  | SUBZERO
  | SONYA
  | GORO
  | SHANG_TSUNG
  deriving DecidableEq, Fintype, Repr

/-- A type usable as the index type `T` of `SpriteData<T, SIZE>`:
`static_cast_int s` is the conversion `static_cast<int>(s)`, a signed `int`. -/
class StaticCastInt (T : Type) where
  static_cast_int : T → Int

export StaticCastInt (static_cast_int)

/-- An enumeration whose enumerators are non-negative, as those of the three
enums of the header are: `ordinal` is the value of the enumerator. -/
class EnumClass (T : Type) where
  ordinal : T → Nat

export EnumClass (ordinal)

/-- The conversion `static_cast<int>(s)` of an enumerator with a non-negative
value is that value. -/
instance {T : Type} [EnumClass T] : StaticCastInt T where
  static_cast_int s := (ordinal s : Int)

/-- An index type that the header does not declare but the template accepts,
`enum class SignedIndex { NEG = -1, ZERO }`: an enumeration with a negative
enumerator. -/
inductive SignedIndex where
  | NEG
  | ZERO
  deriving DecidableEq, Repr

instance : StaticCastInt SignedIndex where
  static_cast_int
    | .NEG => -1
    | .ZERO => 0

/-- Enumerator values of `State`: `STANCE = 0`, then each one more than the
previous. -/
def State.ordinal : State → Nat
  | .STANCE => 0
  | .WALK_FORWARDS => 1
  | .WALK_BACKWARDS => 2
  | .LOW_PUNCH => 3
  | .LOW_PUNCH_SPREE => 4
  | .BODY_TO_BODY_PUNCH => 5
  | .HIGH_PUNCH => 6
  | .HIGH_PUNCH_SPREE => 7
  | .BODY_TO_BODY_KICK => 8
  | .LOW_KICK => 9
  | .LOW_SWEEP_KICK => 10
  | .HIGH_KICK => 11
  | .HIGH_SWEEP_KICK => 12
  | .CROUCH => 13
  | .UPPERCUT => 14
  | .CROUCH_KICK => 15
  | .JUMP => 16
  | .JUMP_PUNCH => 17
  | .JUMP_HIGH_KICK => 18
  | .LANDING => 19
  | .JUMP_BACK => 20
  | .ROLL => 21
  | .FORWARD_JUMP_PUNCH => 22
  | .JUMP_LOW_KICK => 23
  | .TORSO_HIT => 24
  | .HEAD_HIT => 25
  | .KICKBACK_TORSO_HIT => 26
  | .CROUCH_HIT => 27
  | .FALL => 28
  | .UPPERCUT_HIT => 29
  | .NUTS_HIT => 30
  | .FALL_INPLACE => 31
  | .GETUP => 32
  | .CAUGHT => 33
  | .THROWN => 34
  | .BLOCK => 35
  | .CROUCH_BLOCK => 36
  | .TURN_RIGHT_TO_LEFT => 37
  | .TURN_LEFT_TO_RIGHT => 38
  | .SPECIAL_1 => 39
  | .SPECIAL_2 => 40
  | .SPECIAL_3 => 41
  | .GIDDY => 42
  | .FINISH_HIM => 43
  | .GIDDY_FALL => 44
  | .WIN => 45

instance : EnumClass State where
  ordinal := State.ordinal

/-- Enumerator values of `SpecialAttacks`. -/
def SpecialAttacks.ordinal : SpecialAttacks → Nat
  | .FIREBALL => 0
  | .EXPLOSION => 1
  | .NONE => 2

instance : EnumClass SpecialAttacks where
  ordinal := SpecialAttacks.ordinal

/-- Enumerator values of `CharacterType`. -/
def CharacterType.ordinal : CharacterType → Nat
  | .CAGE => 0
  | .KANO => 1
  | .RAIDEN => 2
  | .LIU_KANG => 3
  | .SCORPION => 4
  | .SUBZERO => 5
  | .SONYA => 6
  | .GORO => 7
  | .SHANG_TSUNG => 8

instance : EnumClass CharacterType where
  ordinal := CharacterType.ordinal

/-! ## Sizes, `SpriteInfo`, `std::array`, `SpriteData` -/

def CHARACTER_SPRITE_SIZE : Nat := 46
def SPECIAL_ATTACK_SPRITE_SIZE : Nat := 2
def WIN_SPRITE_BY_CHARACTER_SIZE : Nat := 9

/-- The sprite information of one animation (`struct SpriteInfo`), with the
default member initialisers of the header. -/
structure SpriteInfo where
  frameCount : Int := 0
  x : Int := 0
  y : Int := 0
  w : Int := 230
  h : Int := 220
  deriving DecidableEq, Repr

/-- A `std::array<α, SIZE>`: exactly `SIZE` elements. -/
structure StdArray (α : Type) (SIZE : Nat) where
  elems : List α
  size_eq : elems.length = SIZE

/-- Subscripting `a[i]` of a `std::array` with an `int` index: the element at
position `i` when `0 ≤ i < SIZE`, undefined (`none`) otherwise. -/
def StdArray.subscript {α : Type} {SIZE : Nat} (a : StdArray α SIZE) (i : Int) : Option α :=
  if i < 0 then none else a.elems[i.toNat]?

/-- The element of a `std::array` at an in-range position. -/
def StdArray.elemAt {α : Type} {SIZE : Nat} (a : StdArray α SIZE) (i : Nat) (h : i < SIZE) : α :=
  a.elems.get ⟨i, by rw [a.size_eq]; exact h⟩

/-- The class `SpriteData<T, SIZE>`: a private array of `SIZE` sprite infos.
The structure constructor is the C++ constructor, which copies its argument
into the member `sprite`. -/
structure SpriteData (T : Type) (SIZE : Nat) where
  sprite : StdArray SpriteInfo SIZE

/-- The accessor `operator[](const T& s) const`, that is
`sprite[static_cast<int>(s)]`. -/
def SpriteData.index {T : Type} [StaticCastInt T] {SIZE : Nat}
    (d : SpriteData T SIZE) (s : T) : Option SpriteInfo :=
  d.sprite.subscript (static_cast_int s)

/-! ## The constant tables -/

def SUBZERO_SPRITE_ARRAY : StdArray SpriteInfo CHARACTER_SPRITE_SIZE where
  elems := [
    ⟨12, 32, 58, 230, 220⟩,     -- Stance
    ⟨9, 3074, 58, 230, 220⟩,    -- Walk Forwards
    ⟨9, 3074, 58, 230, 220⟩,    -- Walk Backwards
    ⟨5, 32, 580, 230, 220⟩,     -- Low Punch
    ⟨10, 1436, 580, 230, 220⟩,  -- Low Punch Spree
    ⟨5, 4010, 580, 230, 220⟩,   -- Body to Body Punch
    ⟨5, 32, 1052, 230, 220⟩,    -- High Punch
    ⟨10, 1436, 1052, 230, 220⟩, -- High Punch Spree
    ⟨5, 4010, 1052, 230, 220⟩,  -- Body to Body Kick
    ⟨7, 32, 1574, 230, 220⟩,    -- Low Kick
    ⟨8, 1904, 1574, 230, 220⟩,  -- Lowkick Sweep
    ⟨10, 32, 2046, 230, 220⟩,   -- High Kick
    ⟨8, 2606, 2046, 230, 220⟩,  -- Highkick Sweep
    ⟨5, 32, 2568, 230, 220⟩,    -- Crouch
    ⟨5, 1436, 2568, 230, 220⟩,  -- Uppercut
    ⟨5, 2840, 2568, 230, 220⟩,  -- Crouch Kick
    ⟨1, 32, 3090, 230, 220⟩,    -- Jump
    ⟨5, 500, 3090, 230, 220⟩,   -- Jump Punch
    ⟨3, 1904, 3090, 230, 220⟩,  -- Jump Highkick
    ⟨3, 2840, 3090, 230, 220⟩,  -- Landing
    ⟨1, 32, 3562, 230, 220⟩,    -- Jump Back
    ⟨7, 500, 3562, 230, 220⟩,   -- Roll
    ⟨5, 2372, 3562, 230, 220⟩,  -- Forward Jump Punch
    ⟨5, 3776, 3562, 230, 220⟩,  -- Jump Lowkick
    ⟨4, 32, 4084, 230, 220⟩,    -- Torso Hit
    ⟨4, 1202, 4084, 230, 220⟩,  -- Head Hit
    ⟨6, 2372, 4084, 230, 220⟩,  -- Kickback Torso Hit
    ⟨3, 4010, 4084, 230, 220⟩,  -- Crouch Hit
    ⟨5, 32, 4606, 230, 220⟩,    -- Fall
    ⟨6, 1436, 4606, 230, 220⟩,  -- Uppercut Hit
    ⟨6, 3074, 4606, 230, 220⟩,  -- Nuts Hit
    ⟨6, 32, 5078, 230, 220⟩,    -- Fall Inplace
    ⟨5, 1670, 5078, 230, 220⟩,  -- Getup
    ⟨6, 32, 5600, 230, 220⟩,    -- Caught
    ⟨7, 1670, 5600, 230, 220⟩,  -- Thrown
    ⟨5, 32, 6122, 230, 220⟩,    -- Block
    ⟨3, 1436, 6122, 230, 220⟩,  -- Crouch Block
    ⟨4, 2372, 6122, 230, 220⟩,  -- Turn Right to Left
    ⟨4, 3542, 6122, 230, 220⟩,  -- Turn Left to Right
    ⟨10, 32, 6644, 281, 220⟩,   -- Special 1
    ⟨3, 3542, 6644, 230, 220⟩,  -- Special 2
    ⟨-1, -1, -1, 230, 220⟩,     -- Special 3
    ⟨7, 32, 7166, 230, 220⟩,    -- Giddy
    ⟨0, 1904, 7166, 230, 220⟩,  -- Finish Him
    ⟨7, 2606, 7166, 230, 220⟩,  -- Giddy Fall
    ⟨4, 32, 7688, 230, 220⟩]    -- Win
  size_eq := rfl

def SUBZERO_SPECIAL_SPRITE_ARRAY : StdArray SpriteInfo SPECIAL_ATTACK_SPRITE_SIZE where
  elems := [
    ⟨1, 2881, 6720, 80, 28⟩,    -- Ice-Ball
    ⟨4, 2964, 6669, 76, 123⟩]   -- Ice-Ball Hit
  size_eq := rfl

def LIU_KANG_SPRITE_ARRAY : StdArray SpriteInfo CHARACTER_SPRITE_SIZE where
  elems := [
    ⟨8, 32, 58, 230, 220⟩,      -- Stance
    ⟨9, 2138, 58, 230, 220⟩,    -- Walk Forwards
    ⟨9, 2138, 58, 230, 220⟩,    -- Walk Backwards
    ⟨4, 32, 580, 230, 220⟩,     -- Low Punch
    ⟨9, 1202, 580, 230, 220⟩,   -- Low Punch Spree
    ⟨5, 3542, 580, 230, 220⟩,   -- Body to Body Punch
    ⟨4, 32, 1052, 230, 220⟩,    -- High Punch
    ⟨9, 1202, 1052, 230, 220⟩,  -- High Punch Spree
    ⟨5, 3542, 1052, 230, 220⟩,  -- Body to Body Kick
    ⟨7, 32, 1574, 230, 220⟩,    -- Low Kick
    ⟨8, 1904, 1574, 230, 220⟩,  -- Lowkick Sweep
    ⟨9, 32, 2046, 230, 220⟩,    -- High Kick
    ⟨7, 2372, 2046, 230, 220⟩,  -- Highkick Sweep
    ⟨5, 32, 2568, 230, 220⟩,    -- Crouch
    ⟨5, 1436, 2568, 230, 220⟩,  -- Uppercut
    ⟨5, 2840, 2568, 230, 220⟩,  -- Crouch Kick
    ⟨1, 32, 3090, 230, 220⟩,    -- Jump
    ⟨5, 500, 3090, 230, 220⟩,   -- Jump Punch
    ⟨5, 1904, 3090, 230, 220⟩,  -- Jump Highkick
    ⟨3, 3308, 3090, 230, 220⟩,  -- Landing
    ⟨1, 32, 3562, 230, 220⟩,    -- Jump Back
    ⟨7, 500, 3562, 230, 220⟩,   -- Roll
    ⟨5, 2372, 3562, 230, 220⟩,  -- Forward Jump Punch
    ⟨5, 3776, 3562, 230, 220⟩,  -- Jump Lowkick
    ⟨4, 32, 4084, 230, 220⟩,    -- Torso Hit
    ⟨4, 1202, 4084, 230, 220⟩,  -- Head Hit
    ⟨5, 2372, 4084, 230, 220⟩,  -- Kickback Torso Hit
    ⟨3, 3776, 4084, 230, 220⟩,  -- Crouch Hit
    ⟨7, 32, 4606, 230, 220⟩,    -- Fall
    ⟨8, 1904, 4606, 230, 220⟩,  -- Uppercut Hit
    ⟨4, 4010, 4606, 230, 220⟩,  -- Nuts Hit
    ⟨6, 32, 5078, 230, 220⟩,    -- Fall Inplace
    ⟨7, 1670, 5078, 230, 220⟩,  -- Getup
    ⟨7, 32, 5600, 230, 220⟩,    -- Caught
    ⟨7, 1904, 5600, 230, 220⟩,  -- Thrown
    ⟨5, 32, 6122, 230, 220⟩,    -- Block
    ⟨2, 1436, 6122, 230, 220⟩,  -- Crouch Block
    ⟨3, 2138, 6122, 230, 220⟩,  -- Turn Right to Left
    ⟨3, 3074, 6122, 230, 220⟩,  -- Turn Left to Right
    ⟨8, 32, 6644, 230, 220⟩,    -- Special 1
    ⟨4, 2606, 6644, 230, 220⟩,  -- Special 2
    ⟨-1, -1, -1, 230, 220⟩,     -- Special 3
    ⟨7, 32, 7166, 230, 220⟩,    -- Giddy
    ⟨0, 1904, 7166, 230, 220⟩,  -- Finish Him
    ⟨7, 2606, 7166, 230, 220⟩,  -- Giddy Fall
    ⟨14, 32, 8210, 230, 220⟩]   -- Win
  size_eq := rfl

def WIN_SPRITE_BY_CHARACTER_ARRAY : StdArray SpriteInfo WIN_SPRITE_BY_CHARACTER_SIZE where
  elems := [
    ⟨2, 3714, 15, 329, 52⟩,     -- Cage
    ⟨2, 3714, 67, 329, 52⟩,     -- Kano
    ⟨2, 3714, 119, 329, 52⟩,    -- Raiden
    ⟨2, 3714, 171, 329, 52⟩,    -- Liu Kang
    ⟨2, 3714, 223, 329, 52⟩,    -- Scorpion
    ⟨2, 3714, 275, 329, 52⟩,    -- Sub-zero
    ⟨2, 3714, 327, 329, 52⟩,    -- Sonya
    ⟨2, 3714, 379, 329, 52⟩,    -- Goro
    ⟨2, 3714, 431, 329, 52⟩]    -- Shang Tsung
  size_eq := rfl

def LIU_KANG_SPECIAL_SPRITE_ARRAY : StdArray SpriteInfo SPECIAL_ATTACK_SPRITE_SIZE where
  elems := [
    ⟨1, 1902, 6708, 68, 15⟩,    -- Fire-Ball
    ⟨6, 2046, 6665, 65, 87⟩]    -- Fire-Ball Hit
  size_eq := rfl

def SUBZERO_SPRITE : SpriteData State CHARACTER_SPRITE_SIZE :=
  SpriteData.mk SUBZERO_SPRITE_ARRAY

def LIU_KANG_SPRITE : SpriteData State CHARACTER_SPRITE_SIZE :=
  SpriteData.mk LIU_KANG_SPRITE_ARRAY

def SUBZERO_SPECIAL_ATTACK_SPRITE : SpriteData SpecialAttacks SPECIAL_ATTACK_SPRITE_SIZE :=
  SpriteData.mk SUBZERO_SPECIAL_SPRITE_ARRAY

def LIU_SPECIAL_ATTACK_SPRITE : SpriteData SpecialAttacks SPECIAL_ATTACK_SPRITE_SIZE :=
  SpriteData.mk LIU_KANG_SPECIAL_SPRITE_ARRAY

def WIN_SPRITE : SpriteData CharacterType WIN_SPRITE_BY_CHARACTER_SIZE :=
  SpriteData.mk WIN_SPRITE_BY_CHARACTER_ARRAY

/-- The position of a `State` in a character table: its ordinal, which is
below `CHARACTER_SPRITE_SIZE` for every enumerator. -/
def State.position (s : State) : Fin CHARACTER_SPRITE_SIZE :=
  ⟨ordinal s, by cases s <;> decide⟩

/-! ## Regions of the atlas -/

/-- The right edge `x + frameCount * w` of the horizontal strip of frames of an
entry. -/
def SpriteInfo.stripEnd (e : SpriteInfo) : Int :=
  e.x + e.frameCount * e.w

/-- The pixel `(px, py)` lies in the strip of an entry, the rectangle
`[x, x + frameCount * w) × [y, y + h)`. -/
def SpriteInfo.inStrip (e : SpriteInfo) (px py : Int) : Prop :=
  e.x ≤ px ∧ px < e.stripEnd ∧ e.y ≤ py ∧ py < e.y + e.h

/-- The special-attack sprites of a character lie in the gap of its special
row: with `s1`, `s2` the entries at `SPECIAL_1`, `SPECIAL_2` and `p`, `q` the
projectile (`FIREBALL`) and hit (`EXPLOSION`) entries, both rows start at
`y = 6644` with height `220`, the strips of `p` and `q` are inside the band
`[6644, 6644 + 220)`, and `end s1 ≤ p.x`, `end p ≤ q.x`, `end q ≤ s2.x`. -/
def SpecialsInGap (c : SpriteData State CHARACTER_SPRITE_SIZE)
    (a : SpriteData SpecialAttacks SPECIAL_ATTACK_SPRITE_SIZE) : Prop :=
  ∃ s1 s2 p q : SpriteInfo,
    c.index State.SPECIAL_1 = some s1 ∧ c.index State.SPECIAL_2 = some s2 ∧
    a.index SpecialAttacks.FIREBALL = some p ∧ a.index SpecialAttacks.EXPLOSION = some q ∧
    s1.y = 6644 ∧ s1.h = 220 ∧ s2.y = 6644 ∧ s2.h = 220 ∧
    6644 ≤ p.y ∧ p.y + p.h ≤ 6644 + 220 ∧
    6644 ≤ q.y ∧ q.y + q.h ≤ 6644 + 220 ∧
    s1.stripEnd ≤ p.x ∧ p.stripEnd ≤ q.x ∧ q.stripEnd ≤ s2.x ∧
    (∀ px py : Int, ¬ (p.inStrip px py ∧ q.inStrip px py))

/-! ## The two accessors as operations on the object -/

/-- A call of the accessor `operator[](const T& s) const` on the object `d`:
the element denoted by the returned `const SpriteInfo&` (the value of
`sprite[static_cast<int>(s)]`), and the object after the call. The body is a
single `return` of a subscript expression and writes nothing. -/
def SpriteData.call_index_const {T : Type} [StaticCastInt T] {SIZE : Nat}
    (d : SpriteData T SIZE) (s : T) : Option SpriteInfo × SpriteData T SIZE :=
  (d.sprite.subscript (static_cast_int s), d)

/-- A call of the accessor `operator[](T& s)` (non-const) on the object `d`:
the element denoted by the returned `SpriteInfo&` (the value of
`sprite[static_cast<int>(s)]`), and the object after the call. The body is the
same single `return` of a subscript expression and writes nothing. -/
def SpriteData.call_index_mut {T : Type} [StaticCastInt T] {SIZE : Nat}
    (d : SpriteData T SIZE) (s : T) : Option SpriteInfo × SpriteData T SIZE :=
  (d.sprite.subscript (static_cast_int s), d)

/-! ## Generic facts about the accessor -/

theorem StdArray.subscript_ofNat {α : Type} {SIZE : Nat} (a : StdArray α SIZE)
    (i : Nat) (h : i < SIZE) : a.subscript (i : Int) = some (a.elemAt i h) := by
  have hlen : i < a.elems.length := by rw [a.size_eq]; exact h
  have hneg : ¬ ((i : Int) < 0) := by omega
  simp [StdArray.subscript, StdArray.elemAt, hneg, List.getElem?_eq_getElem hlen]

theorem StdArray.subscript_out_of_range {α : Type} {SIZE : Nat} (a : StdArray α SIZE)
    (i : Nat) (h : SIZE ≤ i) : a.subscript (i : Int) = none := by
  have hlen : a.elems.length ≤ i := by rw [a.size_eq]; exact h
  have hneg : ¬ ((i : Int) < 0) := by omega
  simp [StdArray.subscript, hneg, List.getElem?_eq_none hlen]

theorem SpriteData.index_in_range {T : Type} [EnumClass T] {SIZE : Nat}
    (d : SpriteData T SIZE) (s : T) (h : ordinal s < SIZE) :
    d.index s = some (d.sprite.elemAt (ordinal s) h) :=
  StdArray.subscript_ofNat d.sprite (ordinal s) h

/-! ## C1: the lookup returns the array element -/

theorem StdArray.subscript_in_range {α : Type} {SIZE : Nat} (a : StdArray α SIZE)
    (i : Int) (h0 : 0 ≤ i) (h : i.toNat < SIZE) :
    a.subscript i = some (a.elemAt i.toNat h) := by
  have hlen : i.toNat < a.elems.length := by rw [a.size_eq]; exact h
  have hneg : ¬ (i < 0) := by omega
  simp [StdArray.subscript, StdArray.elemAt, hneg, List.getElem?_eq_getElem hlen]

/-- C1 fails as stated: `static_cast<int>(s)` is a signed `int`, and "below
`SIZE`" alone does not put it among the positions of the array. In a
`SpriteData<SignedIndex, 2>` built from Sub-Zero's special-attack array the
enumerator `NEG` has `static_cast<int>(NEG) = -1 < 2`, and the lookup at `NEG`
is out of bounds: it returns no element of the array. -/
theorem C1_counterexample :
    static_cast_int SignedIndex.NEG = -1 ∧
    static_cast_int SignedIndex.NEG < (SPECIAL_ATTACK_SPRITE_SIZE : Int) ∧
    (SpriteData.mk SUBZERO_SPECIAL_SPRITE_ARRAY :
        SpriteData SignedIndex SPECIAL_ATTACK_SPRITE_SIZE).index SignedIndex.NEG = none ∧
    ¬ (∀ (T : Type) [StaticCastInt T] (SIZE : Nat) (a : StdArray SpriteInfo SIZE) (s : T),
        static_cast_int s < (SIZE : Int) →
        ∃ e, (SpriteData.mk a : SpriteData T SIZE).index s = some e) := by
  refine ⟨rfl, by decide, rfl, ?_⟩
  intro hall
  obtain ⟨e, he⟩ := hall SignedIndex SPECIAL_ATTACK_SPRITE_SIZE SUBZERO_SPECIAL_SPRITE_ARRAY
    SignedIndex.NEG (by decide)
  have hnone : (SpriteData.mk SUBZERO_SPECIAL_SPRITE_ARRAY :
      SpriteData SignedIndex SPECIAL_ATTACK_SPRITE_SIZE).index SignedIndex.NEG = none := rfl
  rw [hnone] at he
  cases he

/-- C1, amended. For every `SpriteData<T, SIZE>` built from an array `a` and
every index value `s` whose `static_cast<int>(s)` is at least `0` and below
`SIZE`, the lookup `data[s]` is defined and returns the element of `a` at
position `static_cast<int>(s)`; in particular, for each of the five declared
tables the lookup at an enum value whose ordinal is below the size of the
table returns the element of the corresponding `*_ARRAY` at that ordinal. -/
theorem C1_lookup_in_range_amended :
    (∀ (T : Type) [StaticCastInt T] (SIZE : Nat) (a : StdArray SpriteInfo SIZE) (s : T)
        (h0 : 0 ≤ static_cast_int s) (h : static_cast_int s < (SIZE : Int)),
        (SpriteData.mk a : SpriteData T SIZE).index s
          = some (a.elemAt (static_cast_int s).toNat ((Int.toNat_lt h0).mpr h))) ∧
    (∀ (s : State) (h : static_cast_int s < (CHARACTER_SPRITE_SIZE : Int)),
        SUBZERO_SPRITE.index s
          = some (SUBZERO_SPRITE_ARRAY.elemAt (ordinal s) (Int.ofNat_lt.mp h))) ∧
    (∀ (s : State) (h : static_cast_int s < (CHARACTER_SPRITE_SIZE : Int)),
        LIU_KANG_SPRITE.index s
          = some (LIU_KANG_SPRITE_ARRAY.elemAt (ordinal s) (Int.ofNat_lt.mp h))) ∧
    (∀ (s : SpecialAttacks) (h : static_cast_int s < (SPECIAL_ATTACK_SPRITE_SIZE : Int)),
        SUBZERO_SPECIAL_ATTACK_SPRITE.index s
          = some (SUBZERO_SPECIAL_SPRITE_ARRAY.elemAt (ordinal s) (Int.ofNat_lt.mp h))) ∧
    (∀ (s : SpecialAttacks) (h : static_cast_int s < (SPECIAL_ATTACK_SPRITE_SIZE : Int)),
        LIU_SPECIAL_ATTACK_SPRITE.index s
          = some (LIU_KANG_SPECIAL_SPRITE_ARRAY.elemAt (ordinal s) (Int.ofNat_lt.mp h))) ∧
    (∀ (s : CharacterType) (h : static_cast_int s < (WIN_SPRITE_BY_CHARACTER_SIZE : Int)),
        WIN_SPRITE.index s
          = some (WIN_SPRITE_BY_CHARACTER_ARRAY.elemAt (ordinal s) (Int.ofNat_lt.mp h))) := by
  refine ⟨?_, ?_, ?_, ?_, ?_, ?_⟩
  · intro T _ SIZE a s h0 h
    exact StdArray.subscript_in_range a (static_cast_int s) h0 ((Int.toNat_lt h0).mpr h)
  · intro s h
    exact SpriteData.index_in_range SUBZERO_SPRITE s (Int.ofNat_lt.mp h)
  · intro s h
    exact SpriteData.index_in_range LIU_KANG_SPRITE s (Int.ofNat_lt.mp h)
  · intro s h
    exact SpriteData.index_in_range SUBZERO_SPECIAL_ATTACK_SPRITE s (Int.ofNat_lt.mp h)
  · intro s h
    exact SpriteData.index_in_range LIU_SPECIAL_ATTACK_SPRITE s (Int.ofNat_lt.mp h)
  · intro s h
    exact SpriteData.index_in_range WIN_SPRITE s (Int.ofNat_lt.mp h)

/-- C1 (amended) at concrete inputs: `ZERO` of `SignedIndex` has
`static_cast<int>(ZERO) = 0`, within `0 .. 1`, and the lookup in the table
built from Liu Kang's special-attack array returns its element at position 0,
the literal `{1, 1902, 6708, 68, 15}`; `EXPLOSION` has ordinal `1 < 2`, and the
lookup in `LIU_SPECIAL_ATTACK_SPRITE` returns the literal
`{6, 2046, 6665, 65, 87}` at position 1 of `LIU_KANG_SPECIAL_SPRITE_ARRAY`. -/
theorem C1_lookup_in_range_amended_witness :
    (0 ≤ static_cast_int SignedIndex.ZERO ∧
      static_cast_int SignedIndex.ZERO < (SPECIAL_ATTACK_SPRITE_SIZE : Int)) ∧
    (SpriteData.mk LIU_KANG_SPECIAL_SPRITE_ARRAY :
        SpriteData SignedIndex SPECIAL_ATTACK_SPRITE_SIZE).index SignedIndex.ZERO
      = some ⟨1, 1902, 6708, 68, 15⟩ ∧
    static_cast_int SpecialAttacks.EXPLOSION < (SPECIAL_ATTACK_SPRITE_SIZE : Int) ∧
    LIU_SPECIAL_ATTACK_SPRITE.index SpecialAttacks.EXPLOSION
      = some ⟨6, 2046, 6665, 65, 87⟩ :=
  ⟨⟨by decide, by decide⟩,
   C1_lookup_in_range_amended.1 SignedIndex SPECIAL_ATTACK_SPRITE_SIZE
     LIU_KANG_SPECIAL_SPRITE_ARRAY SignedIndex.ZERO (by decide) (by decide),
   by decide,
   C1_lookup_in_range_amended.2.2.2.2.1 SpecialAttacks.EXPLOSION (by decide)⟩

/-! ## C2: index domains against array lengths -/

/-- C2 fails as stated: `SpecialAttacks::NONE` is an enumerator of the index type
of the two special-attack tables, its ordinal is `2`, which is not a position
of an array of `SPECIAL_ATTACK_SPRITE_SIZE = 2` elements, and the lookup at
`NONE` is out of bounds in both tables. -/
theorem C2_counterexample :
    ordinal SpecialAttacks.NONE = 2 ∧
    ¬ (ordinal SpecialAttacks.NONE < SPECIAL_ATTACK_SPRITE_SIZE) ∧
    ¬ (∀ i : Nat, (∃ s : SpecialAttacks, ordinal s = i) ↔ i < SPECIAL_ATTACK_SPRITE_SIZE) ∧
    SUBZERO_SPECIAL_ATTACK_SPRITE.index SpecialAttacks.NONE = none ∧
    LIU_SPECIAL_ATTACK_SPRITE.index SpecialAttacks.NONE = none := by
  refine ⟨rfl, by decide, ?_, rfl, rfl⟩
  intro h
  exact absurd ((h 2).mp ⟨SpecialAttacks.NONE, rfl⟩) (by decide)

/-- C2, amended. For the three tables indexed by `State` and `CharacterType`
the ordinals of the enumerators are exactly the positions `0 .. SIZE-1`
(46 and 9), so every lookup is within bounds. For the two tables indexed by
`SpecialAttacks` the ordinals are `0 .. 2` while the array has the positions
`0 .. 1`: the lookup is within bounds exactly for the enumerators other than
`NONE`. -/
theorem C2_index_domain_amended :
    (∀ i : Nat, (∃ s : State, ordinal s = i) ↔ i < CHARACTER_SPRITE_SIZE) ∧
    (∀ i : Nat, (∃ c : CharacterType, ordinal c = i) ↔ i < WIN_SPRITE_BY_CHARACTER_SIZE) ∧
    (∀ s : State, (SUBZERO_SPRITE.index s).isSome = true) ∧
    (∀ s : State, (LIU_KANG_SPRITE.index s).isSome = true) ∧
    (∀ c : CharacterType, (WIN_SPRITE.index c).isSome = true) ∧
    (∀ i : Nat, (∃ s : SpecialAttacks, ordinal s = i) ↔ i < SPECIAL_ATTACK_SPRITE_SIZE + 1) ∧
    (∀ s : SpecialAttacks,
        (SUBZERO_SPECIAL_ATTACK_SPRITE.index s).isSome = true ↔ s ≠ SpecialAttacks.NONE) ∧
    (∀ s : SpecialAttacks,
        (LIU_SPECIAL_ATTACK_SPRITE.index s).isSome = true ↔ s ≠ SpecialAttacks.NONE) := by
  refine ⟨?_, ?_, by decide, by decide, by decide, ?_, by decide, by decide⟩
  · intro i
    constructor
    · rintro ⟨s, rfl⟩
      exact s.position.isLt
    · intro h
      have hi : ∀ j : Fin CHARACTER_SPRITE_SIZE, ∃ s : State, ordinal s = j.val := by decide
      exact hi ⟨i, h⟩
  · intro i
    constructor
    · rintro ⟨c, rfl⟩
      cases c <;> decide
    · intro h
      have hi : ∀ j : Fin WIN_SPRITE_BY_CHARACTER_SIZE,
          ∃ c : CharacterType, ordinal c = j.val := by decide
      exact hi ⟨i, h⟩
  · intro i
    constructor
    · rintro ⟨s, rfl⟩
      cases s <;> decide
    · intro h
      have hi : ∀ j : Fin (SPECIAL_ATTACK_SPRITE_SIZE + 1),
          ∃ s : SpecialAttacks, ordinal s = j.val := by decide
      exact hi ⟨i, h⟩

/-! ## C3: the `State` enumeration indexes a character table -/

/-- C3. `State` has exactly 46 enumerators; their ordinals are exactly the
integers `0 .. 45`, with `STANCE = 0` and `WIN = 45 = CHARACTER_SPRITE_SIZE - 1`;
the ordinal map is a bijection between `State` and the positions of a
character table; and the lookups `SUBZERO_SPRITE[s]` and `LIU_KANG_SPRITE[s]`
are defined for every `State s`. -/
theorem C3_state_indexes_character_table :
    Fintype.card State = 46 ∧
    ordinal State.STANCE = 0 ∧
    ordinal State.WIN = 45 ∧
    ordinal State.WIN = CHARACTER_SPRITE_SIZE - 1 ∧
    (∀ i : Nat, (∃ s : State, ordinal s = i) ↔ i < 46) ∧
    Function.Injective (ordinal : State → Nat) ∧
    Function.Bijective State.position ∧
    (∀ s : State, ∃ e, SUBZERO_SPRITE.index s = some e) ∧
    (∀ s : State, ∃ e, LIU_KANG_SPRITE.index s = some e) := by
  have hinj : Function.Injective State.position := by decide
  have hsurj : Function.Surjective State.position := by decide
  refine ⟨rfl, rfl, rfl, rfl, ?_, ?_, ⟨hinj, hsurj⟩, ?_, ?_⟩
  · intro i
    constructor
    · rintro ⟨s, rfl⟩
      exact s.position.isLt
    · intro h
      obtain ⟨s, hs⟩ := hsurj ⟨i, h⟩
      exact ⟨s, congrArg Fin.val hs⟩
  · intro a b hab
    exact hinj (Fin.ext hab)
  · intro s
    exact ⟨_, SpriteData.index_in_range SUBZERO_SPRITE s s.position.isLt⟩
  · intro s
    exact ⟨_, SpriteData.index_in_range LIU_KANG_SPRITE s s.position.isLt⟩

/-! ## C4: the win banners -/

/-- C4. `CharacterType` has nine enumerators, `CAGE = 0` to `SHANG_TSUNG = 8`,
all in range of the win table; for every character `c` the lookup
`WIN_SPRITE[c]` is `{2, 3714, 15 + 52 * ordinal c, 329, 52}`; and the banners
of consecutive characters are stacked exactly one banner height apart: the
next banner starts at the `y` where the previous one ends. -/
theorem C4_win_sprite_rows :
    Fintype.card CharacterType = 9 ∧
    ordinal CharacterType.CAGE = 0 ∧
    ordinal CharacterType.SHANG_TSUNG = 8 ∧
    (∀ c : CharacterType, ordinal c < WIN_SPRITE_BY_CHARACTER_SIZE) ∧
    (∀ c : CharacterType,
        WIN_SPRITE.index c = some ⟨2, 3714, 15 + 52 * (ordinal c : Int), 329, 52⟩) ∧
    (∀ (c d : CharacterType) (e f : SpriteInfo),
        WIN_SPRITE.index c = some e → WIN_SPRITE.index d = some f →
        ordinal d = ordinal c + 1 → e.h = 52 ∧ f.y = e.y + e.h) := by
  have hrow : ∀ c : CharacterType,
      WIN_SPRITE.index c = some ⟨2, 3714, 15 + 52 * (ordinal c : Int), 329, 52⟩ := by
    decide
  refine ⟨rfl, rfl, rfl, by decide, hrow, ?_⟩
  intro c d e f hc hd hcd
  rw [hrow c] at hc
  rw [hrow d] at hd
  obtain rfl := Option.some.inj hc
  obtain rfl := Option.some.inj hd
  refine ⟨rfl, ?_⟩
  show (15 + 52 * (ordinal d : Int)) = (15 + 52 * (ordinal c : Int)) + 52
  rw [hcd]
  push_cast
  ring

/-- C4 at a concrete input: Raiden's banner `{2, 3714, 119, 329, 52}` and
Liu Kang's banner `{2, 3714, 171, 329, 52}` are consecutive rows, and
`171 = 119 + 52`. -/
theorem C4_win_sprite_rows_witness :
    WIN_SPRITE.index CharacterType.RAIDEN = some ⟨2, 3714, 119, 329, 52⟩ ∧
    WIN_SPRITE.index CharacterType.LIU_KANG = some ⟨2, 3714, 171, 329, 52⟩ ∧
    ordinal CharacterType.LIU_KANG = ordinal CharacterType.RAIDEN + 1 ∧
    ((52 : Int) = 52 ∧ (171 : Int) = 119 + 52) :=
  ⟨rfl, rfl, rfl,
   C4_win_sprite_rows.2.2.2.2.2 CharacterType.RAIDEN CharacterType.LIU_KANG
     ⟨2, 3714, 119, 329, 52⟩ ⟨2, 3714, 171, 329, 52⟩ rfl rfl rfl⟩

/-! ## C5: sign conditions on the entries -/

/-- C5 fails as stated: the entry of Sub-Zero's table at `SPECIAL_3` is
`{-1, -1, -1, 230, 220}`, whose frame count, `x` and `y` are negative (the
entry of Liu Kang's table at `SPECIAL_3` is the same). -/
theorem C5_counterexample :
    SUBZERO_SPRITE.index State.SPECIAL_3 = some ⟨-1, -1, -1, 230, 220⟩ ∧
    LIU_KANG_SPRITE.index State.SPECIAL_3 = some ⟨-1, -1, -1, 230, 220⟩ ∧
    ¬ (∀ (s : State) (e : SpriteInfo), SUBZERO_SPRITE.index s = some e →
        0 ≤ e.frameCount ∧ 0 ≤ e.x ∧ 0 ≤ e.y ∧ 0 < e.w ∧ 0 < e.h) := by
  refine ⟨rfl, rfl, ?_⟩
  intro h
  exact absurd (h State.SPECIAL_3 ⟨-1, -1, -1, 230, 220⟩ rfl).1 (by decide)

/-- C5, amended. In every table every entry has `w > 0` and `h > 0`. Every
entry of the two special-attack tables and of the win table, and every entry
of the two character tables other than the one at `SPECIAL_3`, has a
non-negative frame count and `x ≥ 0`, `y ≥ 0`. The entry at `SPECIAL_3` of
both character tables is `{-1, -1, -1, 230, 220}`. -/
theorem C5_entry_signs_amended :
    (∀ (s : State) (e : SpriteInfo), SUBZERO_SPRITE.index s = some e →
        0 < e.w ∧ 0 < e.h ∧
        (s ≠ State.SPECIAL_3 → 0 ≤ e.frameCount ∧ 0 ≤ e.x ∧ 0 ≤ e.y) ∧
        (s = State.SPECIAL_3 → e = ⟨-1, -1, -1, 230, 220⟩)) ∧
    (∀ (s : State) (e : SpriteInfo), LIU_KANG_SPRITE.index s = some e →
        0 < e.w ∧ 0 < e.h ∧
        (s ≠ State.SPECIAL_3 → 0 ≤ e.frameCount ∧ 0 ≤ e.x ∧ 0 ≤ e.y) ∧
        (s = State.SPECIAL_3 → e = ⟨-1, -1, -1, 230, 220⟩)) ∧
    (∀ (s : SpecialAttacks) (e : SpriteInfo), SUBZERO_SPECIAL_ATTACK_SPRITE.index s = some e →
        0 ≤ e.frameCount ∧ 0 ≤ e.x ∧ 0 ≤ e.y ∧ 0 < e.w ∧ 0 < e.h) ∧
    (∀ (s : SpecialAttacks) (e : SpriteInfo), LIU_SPECIAL_ATTACK_SPRITE.index s = some e →
        0 ≤ e.frameCount ∧ 0 ≤ e.x ∧ 0 ≤ e.y ∧ 0 < e.w ∧ 0 < e.h) ∧
    (∀ (c : CharacterType) (e : SpriteInfo), WIN_SPRITE.index c = some e →
        0 ≤ e.frameCount ∧ 0 ≤ e.x ∧ 0 ≤ e.y ∧ 0 < e.w ∧ 0 < e.h) := by
  refine ⟨?_, ?_, ?_, ?_, ?_⟩
  · intro s e h
    cases s <;> (obtain rfl := Option.some.inj h; decide)
  · intro s e h
    cases s <;> (obtain rfl := Option.some.inj h; decide)
  · intro s e h
    cases s
    · obtain rfl := Option.some.inj h; decide
    · obtain rfl := Option.some.inj h; decide
    · have h0 : SUBZERO_SPECIAL_ATTACK_SPRITE.index SpecialAttacks.NONE = none := rfl
      rw [h0] at h
      cases h
  · intro s e h
    cases s
    · obtain rfl := Option.some.inj h; decide
    · obtain rfl := Option.some.inj h; decide
    · have h0 : LIU_SPECIAL_ATTACK_SPRITE.index SpecialAttacks.NONE = none := rfl
      rw [h0] at h
      cases h
  · intro c e h
    cases c <;> (obtain rfl := Option.some.inj h; decide)

/-- C5 (amended) at a concrete input: Sub-Zero's `STANCE` entry
`{12, 32, 58, 230, 220}` has positive size and non-negative frame count and
origin. -/
theorem C5_entry_signs_amended_witness :
    SUBZERO_SPRITE.index State.STANCE = some ⟨12, 32, 58, 230, 220⟩ ∧
    ((0 : Int) < 230 ∧ (0 : Int) < 220 ∧
      (State.STANCE ≠ State.SPECIAL_3 → (0 : Int) ≤ 12 ∧ (0 : Int) ≤ 32 ∧ (0 : Int) ≤ 58) ∧
      (State.STANCE = State.SPECIAL_3 →
        (⟨12, 32, 58, 230, 220⟩ : SpriteInfo) = ⟨-1, -1, -1, 230, 220⟩)) :=
  ⟨rfl, C5_entry_signs_amended.1 State.STANCE ⟨12, 32, 58, 230, 220⟩ rfl⟩

/-! ## C6: the special-attack tables -/

/-- C6. `SpecialAttacks` has the three enumerators `FIREBALL = 0`,
`EXPLOSION = 1`, `NONE = 2`. In both special-attack tables the lookup at
`FIREBALL` returns the projectile entry and the lookup at `EXPLOSION` the hit
entry, and `NONE`, whose index `2` is not a position of the 2-element array,
is the only enumerator at which the lookup is undefined. -/
theorem C6_special_attack_lookups :
    Fintype.card SpecialAttacks = 3 ∧
    ordinal SpecialAttacks.FIREBALL = 0 ∧
    ordinal SpecialAttacks.EXPLOSION = 1 ∧
    ordinal SpecialAttacks.NONE = 2 ∧
    SUBZERO_SPECIAL_ATTACK_SPRITE.index SpecialAttacks.FIREBALL
      = some ⟨1, 2881, 6720, 80, 28⟩ ∧
    LIU_SPECIAL_ATTACK_SPRITE.index SpecialAttacks.FIREBALL
      = some ⟨1, 1902, 6708, 68, 15⟩ ∧
    SUBZERO_SPECIAL_ATTACK_SPRITE.index SpecialAttacks.EXPLOSION
      = some ⟨4, 2964, 6669, 76, 123⟩ ∧
    LIU_SPECIAL_ATTACK_SPRITE.index SpecialAttacks.EXPLOSION
      = some ⟨6, 2046, 6665, 65, 87⟩ ∧
    ¬ (ordinal SpecialAttacks.NONE < SPECIAL_ATTACK_SPRITE_SIZE) ∧
    (∀ s : SpecialAttacks,
        SUBZERO_SPECIAL_ATTACK_SPRITE.index s = none ↔ s = SpecialAttacks.NONE) ∧
    (∀ s : SpecialAttacks,
        LIU_SPECIAL_ATTACK_SPRITE.index s = none ↔ s = SpecialAttacks.NONE) := by
  refine ⟨rfl, rfl, rfl, rfl, rfl, rfl, rfl, rfl, by decide, by decide, by decide⟩

/-! ## C7: strips of a character table do not overlap -/

/-- Two entries whose strips are separated along one axis share no pixel. -/
theorem SpriteInfo.not_inStrip_of_separated (e f : SpriteInfo)
    (h : e.stripEnd ≤ f.x ∨ f.stripEnd ≤ e.x ∨ e.y + e.h ≤ f.y ∨ f.y + f.h ≤ e.y)
    (px py : Int) : ¬ (e.inStrip px py ∧ f.inStrip px py) := by
  rintro ⟨⟨h1, h2, h3, h4⟩, ⟨h5, h6, h7, h8⟩⟩
  rcases h with h | h | h | h <;> omega

theorem SUBZERO_SPRITE_separated : ∀ s t : State,
    ∀ e ∈ SUBZERO_SPRITE.index s, ∀ f ∈ SUBZERO_SPRITE.index t,
      0 < e.frameCount → 0 < f.frameCount →
      e = f ∨ (e.stripEnd ≤ f.x ∨ f.stripEnd ≤ e.x ∨ e.y + e.h ≤ f.y ∨ f.y + f.h ≤ e.y) := by
  decide

theorem LIU_KANG_SPRITE_separated : ∀ s t : State,
    ∀ e ∈ LIU_KANG_SPRITE.index s, ∀ f ∈ LIU_KANG_SPRITE.index t,
      0 < e.frameCount → 0 < f.frameCount →
      e = f ∨ (e.stripEnd ≤ f.x ∨ f.stripEnd ≤ e.x ∨ e.y + e.h ≤ f.y ∨ f.y + f.h ≤ e.y) := by
  decide

/-- C7. In each character table, for any two states `s` and `t` whose entries
`e` and `f` both have a positive frame count, either `e = f` or the strips
`[x, x + frameCount * w) × [y, y + h)` of `e` and `f` share no pixel. -/
theorem C7_strips_do_not_overlap (d : SpriteData State CHARACTER_SPRITE_SIZE)
    (hd : d = SUBZERO_SPRITE ∨ d = LIU_KANG_SPRITE) (s t : State) (e f : SpriteInfo)
    (hs : d.index s = some e) (ht : d.index t = some f)
    (he : 0 < e.frameCount) (hf : 0 < f.frameCount) :
    e = f ∨ ∀ px py : Int, ¬ (e.inStrip px py ∧ f.inStrip px py) := by
  have hsep : e = f ∨
      (e.stripEnd ≤ f.x ∨ f.stripEnd ≤ e.x ∨ e.y + e.h ≤ f.y ∨ f.y + f.h ≤ e.y) := by
    rcases hd with rfl | rfl
    · exact SUBZERO_SPRITE_separated s t e hs f ht he hf
    · exact LIU_KANG_SPRITE_separated s t e hs f ht he hf
  rcases hsep with h | h
  · exact Or.inl h
  · exact Or.inr (SpriteInfo.not_inStrip_of_separated e f h)

/-- C7 at a concrete input: Sub-Zero's `STANCE` strip `[32, 2792) × [58, 278)`
and `WALK_FORWARDS` strip `[3074, 5144) × [58, 278)` are different entries of
the same row, and they share no pixel. -/
theorem C7_strips_do_not_overlap_witness :
    SUBZERO_SPRITE.index State.STANCE = some ⟨12, 32, 58, 230, 220⟩ ∧
    SUBZERO_SPRITE.index State.WALK_FORWARDS = some ⟨9, 3074, 58, 230, 220⟩ ∧
    ((⟨12, 32, 58, 230, 220⟩ : SpriteInfo) = ⟨9, 3074, 58, 230, 220⟩ ∨
      ∀ px py : Int, ¬ (SpriteInfo.inStrip ⟨12, 32, 58, 230, 220⟩ px py ∧
        SpriteInfo.inStrip ⟨9, 3074, 58, 230, 220⟩ px py)) :=
  ⟨rfl, rfl,
   C7_strips_do_not_overlap SUBZERO_SPRITE (Or.inl rfl) State.STANCE State.WALK_FORWARDS
     ⟨12, 32, 58, 230, 220⟩ ⟨9, 3074, 58, 230, 220⟩ rfl rfl (by decide) (by decide)⟩

/-! ## C8: the entries without frames -/

/-- C8. In both character tables the states whose entry has a non-positive
frame count are exactly `SPECIAL_3` and `FINISH_HIM`; the entry at `SPECIAL_3`
is the sentinel `{-1, -1, -1, 230, 220}`; the entry at `FINISH_HIM` has frame
count `0`; every other state has a frame count of at least `1` and
non-negative `x` and `y`. -/
theorem C8_entries_without_frames (d : SpriteData State CHARACTER_SPRITE_SIZE)
    (hd : d = SUBZERO_SPRITE ∨ d = LIU_KANG_SPRITE) :
    (∀ s : State, ∃ e, d.index s = some e ∧
        (e.frameCount ≤ 0 ↔ s = State.SPECIAL_3 ∨ s = State.FINISH_HIM)) ∧
    d.index State.SPECIAL_3 = some ⟨-1, -1, -1, 230, 220⟩ ∧
    (∃ e, d.index State.FINISH_HIM = some e ∧ e.frameCount = 0) ∧
    (∀ s : State, s ≠ State.SPECIAL_3 → s ≠ State.FINISH_HIM →
        ∃ e, d.index s = some e ∧ 1 ≤ e.frameCount ∧ 0 ≤ e.x ∧ 0 ≤ e.y) := by
  rcases hd with rfl | rfl
  · refine ⟨?_, rfl, ⟨_, rfl, rfl⟩, ?_⟩
    · intro s
      cases s <;> exact ⟨_, rfl, by decide⟩
    · intro s h3 hf
      cases s <;> first
        | exact absurd rfl h3
        | exact absurd rfl hf
        | exact ⟨_, rfl, by decide⟩
  · refine ⟨?_, rfl, ⟨_, rfl, rfl⟩, ?_⟩
    · intro s
      cases s <;> exact ⟨_, rfl, by decide⟩
    · intro s h3 hf
      cases s <;> first
        | exact absurd rfl h3
        | exact absurd rfl hf
        | exact ⟨_, rfl, by decide⟩

/-- C8 at a concrete input: Liu Kang's table, where `SPECIAL_3` is the sentinel
and `FINISH_HIM` is `{0, 1904, 7166, 230, 220}`. -/
theorem C8_entries_without_frames_witness :
    LIU_KANG_SPRITE.index State.SPECIAL_3 = some ⟨-1, -1, -1, 230, 220⟩ ∧
    (∃ e, LIU_KANG_SPRITE.index State.FINISH_HIM = some e ∧ e.frameCount = 0) :=
  ⟨(C8_entries_without_frames LIU_KANG_SPRITE (Or.inr rfl)).2.1,
   (C8_entries_without_frames LIU_KANG_SPRITE (Or.inr rfl)).2.2.1⟩

/-! ## C9: the special-attack sprites sit in the gap of the special row -/

/-- C9. For Sub-Zero and for Liu Kang, the projectile and hit sprites, taken as
strips, lie inside the vertical band `[6644, 6644 + 220)` of the character's
`SPECIAL_1` / `SPECIAL_2` row and horizontally between the end of the
`SPECIAL_1` strip and the start of the `SPECIAL_2` strip, and do not overlap
each other: end of `SPECIAL_1` ≤ projectile `x`, projectile end ≤ hit `x`,
hit end ≤ `SPECIAL_2` `x`. -/
theorem C9_special_sprites_in_gap :
    SpecialsInGap SUBZERO_SPRITE SUBZERO_SPECIAL_ATTACK_SPRITE ∧
    SpecialsInGap LIU_KANG_SPRITE LIU_SPECIAL_ATTACK_SPRITE := by
  constructor
  · refine ⟨_, _, _, _, rfl, rfl, rfl, rfl, rfl, rfl, rfl, rfl, by decide, by decide,
      by decide, by decide, by decide, by decide, by decide, ?_⟩
    exact SpriteInfo.not_inStrip_of_separated _ _ (Or.inl (by decide))
  · refine ⟨_, _, _, _, rfl, rfl, rfl, rfl, rfl, rfl, rfl, rfl, by decide, by decide,
      by decide, by decide, by decide, by decide, by decide, ?_⟩
    exact SpriteInfo.not_inStrip_of_separated _ _ (Or.inl (by decide))

/-! ## C10: the shared walk entry -/

/-- C10. In both character tables the lookup at `WALK_BACKWARDS` returns the
same `SpriteInfo` as the lookup at `WALK_FORWARDS`, and these are the only two
distinct states of the table whose lookups return an identical entry. -/
theorem C10_walk_entries_shared (d : SpriteData State CHARACTER_SPRITE_SIZE)
    (hd : d = SUBZERO_SPRITE ∨ d = LIU_KANG_SPRITE) :
    (∃ e, d.index State.WALK_FORWARDS = some e ∧ d.index State.WALK_BACKWARDS = some e) ∧
    (∀ (s t : State) (e : SpriteInfo), s ≠ t → d.index s = some e → d.index t = some e →
        (s = State.WALK_FORWARDS ∧ t = State.WALK_BACKWARDS) ∨
        (s = State.WALK_BACKWARDS ∧ t = State.WALK_FORWARDS)) := by
  have hsz : ∀ s t : State, s ≠ t → SUBZERO_SPRITE.index s = SUBZERO_SPRITE.index t →
      (s = State.WALK_FORWARDS ∧ t = State.WALK_BACKWARDS) ∨
      (s = State.WALK_BACKWARDS ∧ t = State.WALK_FORWARDS) := by decide
  have hlk : ∀ s t : State, s ≠ t → LIU_KANG_SPRITE.index s = LIU_KANG_SPRITE.index t →
      (s = State.WALK_FORWARDS ∧ t = State.WALK_BACKWARDS) ∨
      (s = State.WALK_BACKWARDS ∧ t = State.WALK_FORWARDS) := by decide
  rcases hd with rfl | rfl
  · exact ⟨⟨_, rfl, rfl⟩, fun s t e hne hs ht => hsz s t hne (hs.trans ht.symm)⟩
  · exact ⟨⟨_, rfl, rfl⟩, fun s t e hne hs ht => hlk s t hne (hs.trans ht.symm)⟩

/-- C10 at a concrete input: in Sub-Zero's table both walk states return
`{9, 3074, 58, 230, 220}`. -/
theorem C10_walk_entries_shared_witness :
    (∃ e, SUBZERO_SPRITE.index State.WALK_FORWARDS = some e ∧
      SUBZERO_SPRITE.index State.WALK_BACKWARDS = some e) ∧
    State.WALK_FORWARDS ≠ State.WALK_BACKWARDS ∧
    SUBZERO_SPRITE.index State.WALK_FORWARDS = some ⟨9, 3074, 58, 230, 220⟩ ∧
    SUBZERO_SPRITE.index State.WALK_BACKWARDS = some ⟨9, 3074, 58, 230, 220⟩ ∧
    ((State.WALK_FORWARDS = State.WALK_FORWARDS ∧ State.WALK_BACKWARDS = State.WALK_BACKWARDS) ∨
      (State.WALK_FORWARDS = State.WALK_BACKWARDS ∧ State.WALK_BACKWARDS = State.WALK_FORWARDS)) :=
  ⟨(C10_walk_entries_shared SUBZERO_SPRITE (Or.inl rfl)).1, by decide, rfl, rfl,
   (C10_walk_entries_shared SUBZERO_SPRITE (Or.inl rfl)).2 State.WALK_FORWARDS
     State.WALK_BACKWARDS ⟨9, 3074, 58, 230, 220⟩ (by decide) rfl rfl⟩

/-! ## C11: frame sizes of the character tables -/

/-- C11. The default frame size of `SpriteInfo` is `w = 230`, `h = 220`. Every
entry of both character tables has this size, with the single exception of
Sub-Zero's `SPECIAL_1`, whose width is `281` (its height is still `220`); in
particular every Liu Kang entry is exactly `230 x 220`. -/
theorem C11_default_frame_size :
    (({} : SpriteInfo).w = 230 ∧ ({} : SpriteInfo).h = 220) ∧
    (∀ s : State, ∃ e, SUBZERO_SPRITE.index s = some e ∧ e.h = 220 ∧
        (s ≠ State.SPECIAL_1 → e.w = 230) ∧ (s = State.SPECIAL_1 → e.w = 281) ∧
        (e.w ≠ 230 ↔ s = State.SPECIAL_1)) ∧
    (∀ s : State, ∃ e, LIU_KANG_SPRITE.index s = some e ∧ e.w = 230 ∧ e.h = 220) := by
  refine ⟨⟨rfl, rfl⟩, ?_, ?_⟩
  · intro s
    cases s <;> exact ⟨_, rfl, by decide⟩
  · intro s
    cases s <;> exact ⟨_, rfl, by decide⟩

/-! ## C12: the const and the non-const accessor -/

/-- C12. For every table `d` and every in-range index value `s`, the const
`operator[]` and the non-const `operator[]` both return the element at
position `static_cast<int>(s)`, hence the same element, and neither call
changes the table: the object after the call is the object before it, element
by element. -/
theorem C12_accessors_agree {T : Type} [EnumClass T] {SIZE : Nat}
    (d : SpriteData T SIZE) (s : T) (h : static_cast_int s < (SIZE : Int)) :
    (d.call_index_const s).1 = some (d.sprite.elemAt (ordinal s) (Int.ofNat_lt.mp h)) ∧
    (d.call_index_mut s).1 = some (d.sprite.elemAt (ordinal s) (Int.ofNat_lt.mp h)) ∧
    (d.call_index_mut s).1 = (d.call_index_const s).1 ∧
    (d.call_index_const s).1 = d.index s ∧
    (d.call_index_const s).2 = d ∧
    (d.call_index_mut s).2 = d ∧
    (∀ (i : Nat) (hi : i < SIZE),
        (d.call_index_const s).2.sprite.elemAt i hi = d.sprite.elemAt i hi ∧
        (d.call_index_mut s).2.sprite.elemAt i hi = d.sprite.elemAt i hi) := by
  have hlt : ordinal s < SIZE := Int.ofNat_lt.mp h
  have hval : d.sprite.subscript (static_cast_int s)
      = some (d.sprite.elemAt (ordinal s) hlt) :=
    StdArray.subscript_ofNat d.sprite (ordinal s) hlt
  exact ⟨hval, hval, rfl, rfl, rfl, rfl, fun _ _ => ⟨rfl, rfl⟩⟩

/-- C12 at a concrete input: on `WIN_SPRITE` at `GORO` (ordinal `7 < 9`) both
accessors return `{2, 3714, 379, 329, 52}` and leave `WIN_SPRITE` as it was. -/
theorem C12_accessors_agree_witness :
    static_cast_int CharacterType.GORO < (WIN_SPRITE_BY_CHARACTER_SIZE : Int) ∧
    (WIN_SPRITE.call_index_const CharacterType.GORO).1 = some ⟨2, 3714, 379, 329, 52⟩ ∧
    (WIN_SPRITE.call_index_mut CharacterType.GORO).1 = some ⟨2, 3714, 379, 329, 52⟩ ∧
    (WIN_SPRITE.call_index_const CharacterType.GORO).2 = WIN_SPRITE ∧
    (WIN_SPRITE.call_index_mut CharacterType.GORO).2 = WIN_SPRITE :=
  ⟨by decide,
   (C12_accessors_agree WIN_SPRITE CharacterType.GORO (by decide)).1,
   (C12_accessors_agree WIN_SPRITE CharacterType.GORO (by decide)).2.1,
   (C12_accessors_agree WIN_SPRITE CharacterType.GORO (by decide)).2.2.2.2.1,
   (C12_accessors_agree WIN_SPRITE CharacterType.GORO (by decide)).2.2.2.2.2.1⟩

end mortal_kombat
